import Mathlib

/-!
# Entity Activation Subsystem — a shallow embedding

This file embeds, in Lean 4, the Entity Manager of the Open Surge engine
(`entitymanager.c`, scripting system): the entity registry (hash-indexed
metadata store with a secondary id index and a single-entry query cache),
the region-of-interest (ROI) logic, and the spawn / active-entities /
remove operations, together with proofs about them.

Conventions of the embedding:
* SurgeScript object handles are `Nat` (`0` is the null handle).
* `uint64` entity ids are `Nat`; masking is explicit (`% 2 ^ 32`).
* C `double` coordinates are `ℚ`; the C `double → int` conversion
  (truncation toward zero) is `truncQ`.
* The two `fasthash_t` tables are association lists; `fasthash_get`,
  `fasthash_put` and `fasthash_delete` are `flookup`, `fput`, `fdel`.
* `db->cached_query` is a pointer into the forward table in C; here it is
  modelled as the value it points at.  After `fasthash_delete` frees the
  record, the C pointer dangles; the model keeps the last pointed-to
  value, which is what a cache hit observes.
-/

/-- C `double → int` conversion: truncation toward zero. -/
def truncQ (q : ℚ) : ℤ :=
  q.num.tdiv q.den

/-- Model of `fasthash_get` on an association list. -/
def flookup {κ α : Type} [DecidableEq κ] : List (κ × α) → κ → Option α
  | [], _ => none
  | (k, v) :: t, q => if k = q then some v else flookup t q

/-- Model of `fasthash_put`: insert or overwrite. -/
def fput {κ α : Type} [DecidableEq κ] : List (κ × α) → κ → α → List (κ × α)
  | [], q, w => [(q, w)]
  | (k, v) :: t, q, w => if k = q then (q, w) :: t else (k, v) :: fput t q w

/-- Model of `fasthash_delete`: remove the entry with the given key (no-op when absent). -/
def fdel {κ α : Type} [DecidableEq κ] : List (κ × α) → κ → List (κ × α)
  | [], _ => []
  | (k, v) :: t, q => if k = q then t else (k, v) :: fdel t q

/-- Model of `entityinfo_t`: the per-entity record stored by the registry. -/
structure entityinfo_t where
  handle : Nat
  id : Nat
  spawn_point : ℚ × ℚ
  is_persistent : Bool
  is_sleeping : Bool
deriving DecidableEq, Repr

/-- Model of `NULL_ENTRY`: the initial target of the cached-query pointer. -/
def NULL_ENTRY : entityinfo_t :=
  { handle := 0, id := 0, spawn_point := (0, 0)
    is_persistent := false, is_sleeping := false }

/-- The region of interest, inclusive integer coordinates (`db->roi`). -/
structure roi_t where
  left : ℤ
  top : ℤ
  right : ℤ
  bottom : ℤ
deriving DecidableEq, Repr

/-- Model of `entitydb_t`: the registry state (ROI, both hash tables, the
single-entry query cache, the space-partition dirty flag). -/
structure entitydb_t where
  roi : roi_t
  info : List (Nat × entityinfo_t)
  id_to_handle : List (Nat × Nat)
  cached_query : entityinfo_t
  dirty_partition : Bool
deriving DecidableEq, Repr

/-- Model of `generate_entity_id()`: `random64() & UINT64_C(0xFFFFFFFF)`, with the
raw 64-bit random draw passed in explicitly. -/
def generate_entity_id (random64 : Nat) : Nat :=
  random64 % 2 ^ 32

/-- Model of `quick_lookup`: consult the single-entry cache first; on a cache miss
look up the forward table and, when found, repoint the cache at the
record.  Returns the record (if any) and the updated db. -/
def quick_lookup (db : entitydb_t) (entity_handle : Nat) :
    Option entityinfo_t × entitydb_t :=
  if db.cached_query.handle ≠ entity_handle then
    match flookup db.info entity_handle with
    | some info => (some info, { db with cached_query := info })
    | none => (none, db)
  else
    (some db.cached_query, db)

/-- Model of `entitymanager_has_entity_info`: `quick_lookup(...) != NULL`. -/
def entitymanager_has_entity_info (db : entitydb_t) (entity_handle : Nat) : Bool :=
  (quick_lookup db entity_handle).1.isSome

/-- Model of `entitymanager_remove_entity_info`: when the record is found (via
`quick_lookup`), delete the reverse entry at `info->id` and the forward
entry at the handle.  The C code does not repoint the cache. -/
def entitymanager_remove_entity_info (db : entitydb_t) (entity_handle : Nat) :
    entitydb_t :=
  match quick_lookup db entity_handle with
  | (some info, db1) =>
      { db1 with
        id_to_handle := fdel db1.id_to_handle info.id
        info := fdel db1.info entity_handle }
  | (none, db1) => db1

/-- The null object handle. -/
def null_handle : Nat := 0

/-- The external object manager, reduced to what the registry consults:
the set of live object handles (`surgescript_objectmanager_exists`). -/
structure objectmanager_t where
  live : List Nat
deriving DecidableEq, Repr

/-- Model of `entitymanager_find_entity_by_id`: id absent ⇒ null handle, no change;
handle dead ⇒ null handle after purging via
`entitymanager_remove_entity_info`; otherwise the stored handle. -/
def entitymanager_find_entity_by_id (manager : objectmanager_t)
    (db : entitydb_t) (entity_id : Nat) : Nat × entitydb_t :=
  match flookup db.id_to_handle entity_id with
  | none => (null_handle, db)
  | some handle =>
      if handle ∈ manager.live then
        (handle, db)
      else
        (null_handle, entitymanager_remove_entity_info db handle)

/-- Model of `entitymanager_is_inside_roi`: truncate the position to ints and test
inclusively against all four ROI bounds. -/
def entitymanager_is_inside_roi (db : entitydb_t) (position : ℚ × ℚ) : Bool :=
  let x := truncQ position.1
  let y := truncQ position.2
  db.roi.left ≤ x && x ≤ db.roi.right && db.roi.top ≤ y && y ≤ db.roi.bottom

/-- The tag system: a set of (object class name, tag) pairs. -/
abbrev tagsystem_t := List (String × String)

/-- Model of `surgescript_tagsystem_has_tag`. -/
def surgescript_tagsystem_has_tag (ts : tagsystem_t) (name tag : String) : Bool :=
  decide ((name, tag) ∈ ts)

/-- Model of `surgescript_tagsystem_add_tag`. -/
def surgescript_tagsystem_add_tag (ts : tagsystem_t) (name tag : String) : tagsystem_t :=
  (name, tag) :: ts

/-- A leaf container of the Entity Tree: a stable container identity, the
world region the leaf covers, and its member entities. -/
structure leafcontainer_t where
  cid : Nat
  region : roi_t
  members : List Nat
deriving DecidableEq, Repr

/-- Inclusive axis-aligned rectangle intersection. -/
def rect_intersects (a b : roi_t) : Bool :=
  a.left ≤ b.right && b.left ≤ a.right && a.top ≤ b.bottom && b.top ≤ a.bottom

/-- Is the (truncated) world point inside the inclusive rectangle? -/
def rect_contains (a : roi_t) (p : ℚ × ℚ) : Bool :=
  a.left ≤ truncQ p.1 && truncQ p.1 ≤ a.right &&
  a.top ≤ truncQ p.2 && truncQ p.2 ≤ a.bottom

/-- The whole EntityManager as seen by the SurgeScript-bound functions:
the registry db plus the external collaborators it consults (tag system,
object manager) and the heap-held containers (`AWAKEENTITYCONTAINER`,
`DEBUGENTITYCONTAINER`, `ENTITYTREE`, `UNAWAKEENTITYCONTAINERARRAY`,
`NOTGARBAGECONTAINER`). -/
structure emstate_t where
  db : entitydb_t
  tag_system : tagsystem_t
  classes : List String
  live : List Nat
  obj_name : List (Nat × String)
  obj_parent : List (Nat × Nat)
  obj_pos : List (Nat × (ℚ × ℚ))
  inactive_objs : List Nat
  next_handle : Nat
  level_handle : Nat
  setup_objects : List String
  awake_members : List Nat
  debug_members : List Nat
  tree : List leafcontainer_t
  tree_world : ℚ × ℚ
  world_size : ℚ × ℚ
  unawake_array : List Nat
  not_garbage : List Nat
  messages : List String
  edit_mode : Bool
  debug_mode : Bool
deriving DecidableEq, Repr

/-- Model of `surgescript_objectmanager_class_exists`. -/
def surgescript_objectmanager_class_exists (s : emstate_t) (name : String) : Bool :=
  decide (name ∈ s.classes)

/-- Current world position of an object (its transform). -/
def obj_position (s : emstate_t) (h : Nat) : ℚ × ℚ :=
  (flookup s.obj_pos h).getD (0, 0)

/-- Members of the leaf container with the given container identity. -/
def leafMembers : List leafcontainer_t → Nat → List Nat
  | [], _ => []
  | l :: t, cid => if l.cid = cid then l.members else leafMembers t cid

/-- Modelled from the spec: `select_active(output, skip_inactive)` of an
Entity Container appends every member entity; when `skip_inactive` is
true, members flagged inactive by policy are skipped.  (The container
implementation is not among the source files; §4.2 of the spec.) -/
def selectActiveEntities (s : emstate_t) (members : List Nat)
    ( skip_inactive : Bool) : List Nat :=
  if skip_inactive then members.filter (fun h => decide (h ∉ s.inactive_objs))
  else members

/-- Modelled from the spec: `bubble_down(ref, position)` descends the
Entity Tree to a leaf whose region contains the position and stores the
entity there (first such leaf; an entity outside every leaf region is not
stored, a tree-internal placement choice the spec leaves free).  (The
Entity Tree implementation is not among the source files; §4.3.) -/
def bubbleDown (tree : List leafcontainer_t) (h : Nat) (pos : ℚ × ℚ) :
    List leafcontainer_t :=
  match tree with
  | [] => []
  | l :: t =>
      if rect_contains l.region pos then
        { l with members := l.members ++ [h] } :: t
      else
        l :: bubbleDown t h pos

/-- Split a leaf into members staying in its region and members that left it. -/
def bubbleUpLeaf (s : emstate_t) (l : leafcontainer_t) : leafcontainer_t × List Nat :=
  ( { l with members := l.members.filter (fun h => rect_contains l.region (obj_position s h)) },
    l.members.filter (fun h => !rect_contains l.region (obj_position s h)) )

/-- Modelled from the spec: `bubbleUpEntities` of one container — members
whose position left the leaf's region are removed and re-inserted from
the root via `bubble_down` (§4.3). -/
def bubbleUpEntities (s : emstate_t) (tree : List leafcontainer_t) (cid : Nat) :
    List leafcontainer_t :=
  let leavers := ((tree.filter (fun l => l.cid = cid)).map
    (fun l => (bubbleUpLeaf s l).2)).flatten
  let pruned := tree.map (fun l => if l.cid = cid then (bubbleUpLeaf s l).1 else l)
  leavers.foldl (fun tr h => bubbleDown tr h (obj_position s h)) pruned

/-- Model of `refresh_entity_tree`: bubble up the entities of the containers that
are in the unawake container array, update the tracked world size
(relocating every container's entities when it changed), then recompute
the array as the leaves intersecting the ROI (`updateROI`) and mark the
space partition clean.  The Entity Tree callees are modelled from the
spec (§4.3); the control flow is the source's. -/
def refresh_entity_tree (s : emstate_t) : emstate_t :=
  let t1 := s.unawake_array.foldl (fun tr cid => bubbleUpEntities s tr cid) s.tree
  let changed := s.tree_world ≠ s.world_size
  let t2 := if changed then
      (t1.map (fun l => l.cid)).foldl (fun tr cid => bubbleUpEntities s tr cid) t1
    else t1
  let arr := (t2.filter (fun l => rect_intersects l.region s.db.roi)).map
    (fun l => l.cid)
  { s with
    tree := t2
    tree_world := s.world_size
    unawake_array := arr
    db := { s.db with dirty_partition := false } }

/-- Model of `fun_setroi`: normalize the rectangle (each axis is given size at
least 1) and truncate to ints; when the partition is clean and the
coordinates equal the stored ROI, return without doing anything;
otherwise store the ROI and refresh the entity tree. -/
def fun_setroi (s : emstate_t) (x y width height : ℚ) : emstate_t :=
  let left := truncQ x
  let top := truncQ y
  let right := truncQ (x + max width 1 - 1)
  let bottom := truncQ (y + max height 1 - 1)
  if ¬s.db.dirty_partition ∧ s.db.roi = ⟨left, top, right, bottom⟩ then
    s
  else
    refresh_entity_tree { s with db := { s.db with roi := ⟨left, top, right, bottom⟩ } }

/-- Model of `foreach_unawake_container_inside_roi`, specialized to
`selectActiveEntities`: run the query on each container referenced by the
unawake container array and concatenate the outputs. -/
def foreach_unawake_container_inside_roi (s : emstate_t)
    ( skip_inactive : Bool) : List Nat :=
  (s.unawake_array.map
    (fun cid => selectActiveEntities s (leafMembers s.tree cid) skip_inactive)).flatten

/-- Model of `fun_activeentities`: build a fresh output array; `skip_inactive` is
false exactly when the level is in edit mode or Debug Mode; query the
awake container, then each unawake container inside the ROI.  (The debug
container is not consulted.) -/
def fun_activeentities (s : emstate_t) : List Nat :=
  let skip_inactive := !(s.edit_mode || s.debug_mode)
  selectActiveEntities s s.awake_members skip_inactive ++
    foreach_unawake_container_inside_roi s skip_inactive

/-- Model of `prevent_garbage_collection`: store the entity in the dedicated
`NOTGARBAGECONTAINER` (`addObject`). -/
def prevent_garbage_collection (s : emstate_t) (entity_handle : Nat) : emstate_t :=
  { s with not_garbage := s.not_garbage ++ [entity_handle] }

/-- Model of `fun_spawnentity`: validate the class name (existence and the
`"entity"` tag; `scripting_error` crashes the application, embedded as
`Except.error`), apply the detached-but-not-private sanity fix, spawn the
object as a child of Level at the given world position, register the
entity record in both indices, route it to the awake container or the
entity tree (marking the partition dirty), and retain it against garbage
collection.  (`inspect_subtree` is a pure diagnostic over the spawned
object's children; a freshly spawned object has none, so it is omitted.)
The raw `random64()` draw is passed in explicitly. -/
def fun_spawnentity (s : emstate_t) (entity_name : String) (position : ℚ × ℚ)
    (random64 : Nat) : Except String (emstate_t × Nat) :=
  if ¬surgescript_objectmanager_class_exists s entity_name then
    Except.error "Can't spawn entity: object doesn't exist!"
  else if ¬surgescript_tagsystem_has_tag s.tag_system entity_name "entity" then
    Except.error "Can't spawn entity: object isn't tagged entity!"
  else
    let s1 :=
      if surgescript_tagsystem_has_tag s.tag_system entity_name "detached" ∧
         ¬surgescript_tagsystem_has_tag s.tag_system entity_name "private" then
        { s with
          tag_system := surgescript_tagsystem_add_tag s.tag_system entity_name "private"
          messages := s.messages ++
            ["Entity " ++ entity_name ++ " is tagged detached, but not private"] }
      else s
    let h := s1.next_handle
    let s2 := { s1 with
      next_handle := h + 1
      live := s1.live ++ [h]
      obj_name := fput s1.obj_name h entity_name
      obj_parent := fput s1.obj_parent h s1.level_handle
      obj_pos := fput s1.obj_pos h position }
    let info : entityinfo_t := {
      handle := h
      id := generate_entity_id random64
      spawn_point := position
      is_sleeping := !(surgescript_tagsystem_has_tag s2.tag_system entity_name "awake" ||
                       surgescript_tagsystem_has_tag s2.tag_system entity_name "detached")
      is_persistent := !(surgescript_tagsystem_has_tag s2.tag_system entity_name "private" ||
                         decide (entity_name ∈ s2.setup_objects)) }
    let s3 := { s2 with db := { s2.db with
      info := fput s2.db.info h info
      id_to_handle := fput s2.db.id_to_handle info.id h } }
    let is_awake := surgescript_tagsystem_has_tag s3.tag_system entity_name "awake" ||
                    surgescript_tagsystem_has_tag s3.tag_system entity_name "detached"
    let s4 :=
      if is_awake then
        { s3 with awake_members := s3.awake_members ++ [h] }
      else
        { s3 with
          tree := bubbleDown s3.tree h position
          db := { s3.db with dirty_partition := true } }
    let s5 := prevent_garbage_collection s4 h
    Except.ok (s5, h)

/-! ## Helper lemmas on the association-list hash tables -/

theorem flookup_fput_self {κ α : Type} [DecidableEq κ] (l : List (κ × α)) (k : κ) (v : α) :
    flookup (fput l k v) k = some v := by
  induction l with
  | nil => simp [fput, flookup]
  | cons a t ih =>
    obtain ⟨k1, v1⟩ := a
    by_cases hk : k1 = k
    · subst hk; simp [fput, flookup]
    · simp [fput, flookup, hk, ih]

theorem flookup_of_not_mem {κ α : Type} [DecidableEq κ] {l : List (κ × α)} {k : κ}
    (h : k ∉ l.map Prod.fst) : flookup l k = none := by
  induction l with
  | nil => rfl
  | cons a t ih =>
    obtain ⟨k1, v1⟩ := a
    simp only [List.map_cons, List.mem_cons, not_or] at h
    have hne : k1 ≠ k := fun e => h.1 e.symm
    simp [flookup, hne, ih h.2]

theorem flookup_fdel_self {κ α : Type} [DecidableEq κ] {l : List (κ × α)} (k : κ)
    (h : (l.map Prod.fst).Nodup) : flookup (fdel l k) k = none := by
  induction l with
  | nil => rfl
  | cons a t ih =>
    obtain ⟨k1, v1⟩ := a
    simp only [List.map_cons, List.nodup_cons] at h
    by_cases hk : k1 = k
    · subst hk
      simpa [fdel] using flookup_of_not_mem h.1
    · simp [fdel, hk, flookup, ih h.2]

/-! ## Helper lemmas on truncation and the tag system -/

/-- Truncation toward zero is the floor for nonnegative rationals and the
ceiling for negative ones (as the C `double → int` conversion behaves). -/
theorem truncQ_eq (q : ℚ) : truncQ q = if 0 ≤ q then ⌊q⌋ else ⌈q⌉ := by
  unfold truncQ
  by_cases hq : 0 ≤ q
  · rw [if_pos hq, Rat.floor_def]
    exact Int.tdiv_eq_ediv (Rat.num_nonneg.mpr hq) (Int.ofNat_nonneg q.den)
  · rw [if_neg hq]
    have h1 : (0 : ℚ) ≤ -q := by linarith [lt_of_not_ge hq]
    have h2 : (-q).num.tdiv (-q).den = ⌊-q⌋ := by
      rw [Rat.floor_def]
      exact Int.tdiv_eq_ediv (Rat.num_nonneg.mpr h1) (Int.ofNat_nonneg (-q).den)
    rw [Rat.neg_num, Rat.neg_den, Int.neg_tdiv] at h2
    rw [Int.floor_neg] at h2
    omega

theorem truncQ_mono {a b : ℚ} (h : a ≤ b) : truncQ a ≤ truncQ b := by
  rw [truncQ_eq, truncQ_eq]
  split_ifs with h1 h2 h2
  · exact Int.floor_le_floor h
  · exact absurd (le_trans h1 h) h2
  · have ha : a ≤ 0 := le_of_lt (lt_of_not_ge h1)
    have hc : ⌈a⌉ ≤ 0 := Int.ceil_le.mpr (by exact_mod_cast ha)
    have hf : 0 ≤ ⌊b⌋ := Int.le_floor.mpr (by exact_mod_cast h2)
    omega
  · exact Int.ceil_le_ceil h

theorem has_tag_add_tag_ne (ts : tagsystem_t) (name tag name2 tag2 : String)
    (h : tag2 ≠ tag) :
    surgescript_tagsystem_has_tag (surgescript_tagsystem_add_tag ts name tag) name2 tag2 =
      surgescript_tagsystem_has_tag ts name2 tag2 := by
  simp [surgescript_tagsystem_has_tag, surgescript_tagsystem_add_tag, Prod.ext_iff, h]

/-! ## Concrete example states (used by the witnesses) -/

/-- A small EntityManager right after construction: empty registry, two
known entity classes (`"Crate"` plain, `"Ghost"` detached). -/
def EX0 : emstate_t := {
  db := { roi := ⟨0, 0, 0, 0⟩, info := [], id_to_handle := []
          cached_query := NULL_ENTRY, dirty_partition := false }
  tag_system := [("Crate", "entity"), ("Ghost", "entity"), ("Ghost", "detached")]
  classes := ["Crate", "Ghost"]
  live := []
  obj_name := []
  obj_parent := []
  obj_pos := []
  inactive_objs := []
  next_handle := 1
  level_handle := 77
  setup_objects := []
  awake_members := []
  debug_members := []
  tree := []
  tree_world := (0, 0)
  world_size := (0, 0)
  unawake_array := []
  not_garbage := []
  messages := []
  edit_mode := false
  debug_mode := false }


theorem has_tag_add_tag_self (ts : tagsystem_t) (name tag : String) :
    surgescript_tagsystem_has_tag (surgescript_tagsystem_add_tag ts name tag) name tag = true := by
  simp [surgescript_tagsystem_has_tag, surgescript_tagsystem_add_tag]

/-- Lemma: `refresh_entity_tree` does not touch the stored ROI coordinates. -/
theorem refresh_entity_tree_roi (s : emstate_t) :
    (refresh_entity_tree s).db.roi = s.db.roi := by
  simp [refresh_entity_tree]

/-- Lemma: `refresh_entity_tree` leaves the space partition clean. -/
theorem refresh_entity_tree_clean (s : emstate_t) :
    (refresh_entity_tree s).db.dirty_partition = false := by
  simp [refresh_entity_tree]

/-- After any `setROI(x, y, width, height)` call the stored ROI holds the
normalized, truncated coordinates (also when the call early-returns: the
early return requires those very coordinates to be stored already). -/
theorem fun_setroi_roi (s : emstate_t) (x y width height : ℚ) :
    (fun_setroi s x y width height).db.roi =
      ⟨truncQ x, truncQ y, truncQ (x + max width 1 - 1), truncQ (y + max height 1 - 1)⟩ := by
  unfold fun_setroi
  dsimp only []
  split_ifs with h
  · exact h.2
  · exact refresh_entity_tree_roi _

/-- Membership in the ROI is an inclusive test on all four bounds. -/
theorem is_inside_roi_iff (db : entitydb_t) (p : ℚ × ℚ) :
    entitymanager_is_inside_roi db p = true ↔
      (db.roi.left ≤ truncQ p.1 ∧ truncQ p.1 ≤ db.roi.right ∧
       db.roi.top ≤ truncQ p.2 ∧ truncQ p.2 ≤ db.roi.bottom) := by
  simp [entitymanager_is_inside_roi, Bool.and_eq_true, decide_eq_true_eq, and_assoc]

/-- C7: every `setROI(x, y, width, height)` call, including with zero or
negative width/height, stores an ROI with `left ≤ right` and
`top ≤ bottom` (each axis gets size at least 1 via
`right = trunc(x + max(width,1) - 1)`), the point `(x, y)` itself lies
inside the stored ROI, and `entitymanager_is_inside_roi` is inclusive on
all four bounds. -/
theorem setroi_normalizes_and_contains_origin (s : emstate_t) (x y width height : ℚ) :
    (fun_setroi s x y width height).db.roi.left ≤ (fun_setroi s x y width height).db.roi.right ∧
    (fun_setroi s x y width height).db.roi.top ≤ (fun_setroi s x y width height).db.roi.bottom ∧
    entitymanager_is_inside_roi (fun_setroi s x y width height).db (x, y) = true ∧
    (∀ px py : ℚ,
      entitymanager_is_inside_roi (fun_setroi s x y width height).db (px, py) = true ↔
        ((fun_setroi s x y width height).db.roi.left ≤ truncQ px ∧
         truncQ px ≤ (fun_setroi s x y width height).db.roi.right ∧
         (fun_setroi s x y width height).db.roi.top ≤ truncQ py ∧
         truncQ py ≤ (fun_setroi s x y width height).db.roi.bottom)) := by
  have hroi := fun_setroi_roi s x y width height
  have hx : truncQ x ≤ truncQ (x + max width 1 - 1) :=
    truncQ_mono (by linarith [le_max_right width 1])
  have hy : truncQ y ≤ truncQ (y + max height 1 - 1) :=
    truncQ_mono (by linarith [le_max_right height 1])
  refine ⟨by rw [hroi]; exact hx, by rw [hroi]; exact hy, ?_, ?_⟩
  · rw [is_inside_roi_iff, hroi]
    exact ⟨le_refl _, hx, le_refl _, hy⟩
  · intro px py
    exact is_inside_roi_iff _ _

/-- The record of an entity with handle 1 and id 7. -/
def EXC2r : entityinfo_t :=
  { handle := 1, id := 7, spawn_point := (3, 4)
    is_persistent := true, is_sleeping := true }

/-- A registry holding exactly one entity: handle 1, id 7. -/
def EXC2 : entitydb_t :=
  { roi := ⟨0, 0, 0, 0⟩
    info := [(1, EXC2r)]
    id_to_handle := [(7, 1)]
    cached_query := NULL_ENTRY
    dirty_partition := false }

/-- C2: `remove` does delete both the forward and the reverse mapping and
a second `remove` is a no-op, but the claimed "an immediately following
lookup of that reference reports it as not registered" fails: the
single-entry cache still points at the removed (freed) record, so
`entitymanager_has_entity_info` keeps answering `true` for the removed
handle — in the C code this is a read of freed memory. -/
theorem remove_entity_info_stale_cache :
    flookup (entitymanager_remove_entity_info EXC2 1).info 1 = none ∧
    flookup (entitymanager_remove_entity_info EXC2 1).id_to_handle 7 = none ∧
    (entitymanager_find_entity_by_id ⟨[]⟩ (entitymanager_remove_entity_info EXC2 1) 7).1 =
      null_handle ∧
    entitymanager_remove_entity_info (entitymanager_remove_entity_info EXC2 1) 1 =
      entitymanager_remove_entity_info EXC2 1 ∧
    entitymanager_has_entity_info (entitymanager_remove_entity_info EXC2 1) 1 = true := by
  with_unfolding_all decide

/-- C3: looking up an id whose mapped handle is no longer a live object
returns the null handle and, within the same call, purges both the stale
id-to-handle mapping and the handle's record; an id absent from the map
returns the null handle with no state change.  The function is total: no
case escalates to an error.  Hypotheses: the reverse entry points at a
dead handle whose record carries that id; the hash keys are unique (a
hash table cannot hold a key twice); the cache, if it covers the handle,
agrees with the table (it is a pointer into it in C). -/
theorem find_entity_by_id_self_healing
    (manager : objectmanager_t) (db : entitydb_t) (entity_id handle : Nat)
    (r : entityinfo_t)
    (h1 : flookup db.id_to_handle entity_id = some handle)
    (h2 : handle ∉ manager.live)
    (h3 : flookup db.info handle = some r)
    (h4 : r.id = entity_id)
    (h5 : db.cached_query.handle = handle → db.cached_query = r)
    (h6 : (db.info.map Prod.fst).Nodup)
    (h7 : (db.id_to_handle.map Prod.fst).Nodup) :
    (entitymanager_find_entity_by_id manager db entity_id).1 = null_handle ∧
    flookup (entitymanager_find_entity_by_id manager db entity_id).2.id_to_handle
      entity_id = none ∧
    flookup (entitymanager_find_entity_by_id manager db entity_id).2.info handle = none ∧
    (∀ id2, flookup db.id_to_handle id2 = none →
      entitymanager_find_entity_by_id manager db id2 = (null_handle, db)) := by
  have hfind : entitymanager_find_entity_by_id manager db entity_id =
      (null_handle, entitymanager_remove_entity_info db handle) := by
    simp [entitymanager_find_entity_by_id, h1, h2]
  have hq1 : (quick_lookup db handle).1 = some r := by
    unfold quick_lookup
    by_cases hc : db.cached_query.handle = handle
    · have hcr := h5 hc
      have hrh : r.handle = handle := by rw [← hcr]; exact hc
      simp [hc, hcr, hrh]
    · simp [hc, h3]
  have hrem : entitymanager_remove_entity_info db handle =
      { (quick_lookup db handle).2 with
        id_to_handle := fdel (quick_lookup db handle).2.id_to_handle entity_id
        info := fdel (quick_lookup db handle).2.info handle } := by
    unfold entitymanager_remove_entity_info
    rcases hqe : quick_lookup db handle with ⟨o, db1⟩
    rw [hqe] at hq1
    simp only [Prod.fst] at hq1
    subst hq1
    simp [h4]
  have hq2i : (quick_lookup db handle).2.info = db.info := by
    unfold quick_lookup
    by_cases hc : db.cached_query.handle = handle
    · simp [hc]
    · simp only [hc, ne_eq, not_false_iff, if_pos, h3]
  have hq2h : (quick_lookup db handle).2.id_to_handle = db.id_to_handle := by
    unfold quick_lookup
    by_cases hc : db.cached_query.handle = handle
    · simp [hc]
    · simp only [hc, ne_eq, not_false_iff, if_pos, h3]
  refine ⟨by rw [hfind], ?_, ?_, ?_⟩
  · rw [hfind, hrem]
    simp only [hq2h]
    exact flookup_fdel_self entity_id h7
  · rw [hfind, hrem]
    simp only [hq2i]
    exact flookup_fdel_self handle h6
  · intro id2 hid2
    simp [entitymanager_find_entity_by_id, hid2]

/-- C4: when `setROI` receives a rectangle normalizing to the currently
stored ROI coordinates, then (a) with a clean space partition the call
returns at once and the entire state is unchanged, and (b) with a dirty
partition (e.g. after the spawn of a non-awake entity) the refresh is
performed anyway and it clears the dirty flag. -/
theorem setroi_noop_unless_dirty (s : emstate_t) (x y width height : ℚ)
    (hroi : s.db.roi =
      ⟨truncQ x, truncQ y, truncQ (x + max width 1 - 1), truncQ (y + max height 1 - 1)⟩) :
    (s.db.dirty_partition = false → fun_setroi s x y width height = s) ∧
    (s.db.dirty_partition = true →
      fun_setroi s x y width height = refresh_entity_tree s ∧
      (fun_setroi s x y width height).db.dirty_partition = false) := by
  have hdb : { s.db with roi :=
      (⟨truncQ x, truncQ y, truncQ (x + max width 1 - 1), truncQ (y + max height 1 - 1)⟩ :
        roi_t) } = s.db := by
    rw [← hroi]
  constructor
  · intro hclean
    unfold fun_setroi
    dsimp only []
    rw [if_pos ⟨by simp [hclean], hroi⟩]
  · intro hdirty
    have hset : fun_setroi s x y width height = refresh_entity_tree s := by
      unfold fun_setroi
      dsimp only []
      rw [if_neg (by simp [hdirty]), hdb]
    exact ⟨hset, by rw [hset]; exact refresh_entity_tree_clean s⟩

/-- Everything `fun_spawnentity` guarantees on its success path: under
the two validations it returns the fresh handle, registers the record in
both indices with the documented field values, parents the object under
Level at the requested position, retains it in the no-garbage container,
and, for a detached-but-not-private class, warns, adds the `"private"`
tag and registers the entity as non-persistent. -/
theorem fun_spawnentity_ok (s : emstate_t) (entity_name : String) (position : ℚ × ℚ)
    (random64 : Nat)
    (h1 : surgescript_objectmanager_class_exists s entity_name = true)
    (h2 : surgescript_tagsystem_has_tag s.tag_system entity_name "entity" = true) :
    ∃ s2 inf,
      fun_spawnentity s entity_name position random64 =
        Except.ok (s2, s.next_handle) ∧
      flookup s2.db.info s.next_handle = some inf ∧
      flookup s2.db.id_to_handle inf.id = some s.next_handle ∧
      inf.handle = s.next_handle ∧
      inf.id = generate_entity_id random64 ∧
      inf.spawn_point = position ∧
      inf.is_sleeping = !(surgescript_tagsystem_has_tag s.tag_system entity_name "awake" ||
                          surgescript_tagsystem_has_tag s.tag_system entity_name "detached") ∧
      flookup s2.obj_parent s.next_handle = some s.level_handle ∧
      flookup s2.obj_pos s.next_handle = some position ∧
      s2.not_garbage = s.not_garbage ++ [s.next_handle] ∧
      (surgescript_tagsystem_has_tag s.tag_system entity_name "detached" = true →
        surgescript_tagsystem_has_tag s.tag_system entity_name "private" = false →
          s2.messages = s.messages ++
            ["Entity " ++ entity_name ++ " is tagged detached, but not private"] ∧
          surgescript_tagsystem_has_tag s2.tag_system entity_name "private" = true ∧
          inf.is_persistent = false) := by
  unfold fun_spawnentity
  rw [if_neg (by simp [h1]), if_neg (by simp [h2])]
  dsimp only []
  by_cases hd : surgescript_tagsystem_has_tag s.tag_system entity_name "detached" = true ∧
      ¬surgescript_tagsystem_has_tag s.tag_system entity_name "private" = true
  · rw [if_pos hd]
    have hpriv : surgescript_tagsystem_has_tag
        (surgescript_tagsystem_add_tag s.tag_system entity_name "private")
        entity_name "private" = true := has_tag_add_tag_self _ _ _
    have hawake : surgescript_tagsystem_has_tag
        (surgescript_tagsystem_add_tag s.tag_system entity_name "private")
        entity_name "awake" =
        surgescript_tagsystem_has_tag s.tag_system entity_name "awake" :=
      has_tag_add_tag_ne _ _ _ _ _ (by decide)
    have hdet : surgescript_tagsystem_has_tag
        (surgescript_tagsystem_add_tag s.tag_system entity_name "private")
        entity_name "detached" =
        surgescript_tagsystem_has_tag s.tag_system entity_name "detached" :=
      has_tag_add_tag_ne _ _ _ _ _ (by decide)
    rw [if_pos (by simp [hawake, hdet, hd.1])]
    refine ⟨_, _, rfl, flookup_fput_self _ _ _, flookup_fput_self _ _ _, rfl, rfl, rfl,
      ?_, flookup_fput_self _ _ _, flookup_fput_self _ _ _, rfl, ?_⟩
    · simp [hawake, hdet]
    · intro _ _
      exact ⟨rfl, hpriv, by simp [hpriv]⟩
  · rw [if_neg hd]
    by_cases ha : (surgescript_tagsystem_has_tag s.tag_system entity_name "awake" ||
        surgescript_tagsystem_has_tag s.tag_system entity_name "detached") = true
    · rw [if_pos ha]
      refine ⟨_, _, rfl, flookup_fput_self _ _ _, flookup_fput_self _ _ _, rfl, rfl, rfl,
        rfl, flookup_fput_self _ _ _, flookup_fput_self _ _ _, rfl, ?_⟩
      intro hdet hnpriv
      exact absurd ⟨hdet, by simp [hnpriv]⟩ hd
    · rw [if_neg ha]
      refine ⟨_, _, rfl, flookup_fput_self _ _ _, flookup_fput_self _ _ _, rfl, rfl, rfl,
        rfl, flookup_fput_self _ _ _, flookup_fput_self _ _ _, rfl, ?_⟩
      intro hdet hnpriv
      exact absurd ⟨hdet, by simp [hnpriv]⟩ hd

/-- C5: a successfully spawned entity is recorded with
`is_sleeping = true` exactly when its class carries neither the
`"awake"` nor the `"detached"` tag; with no special tags the recorded
flag is `true`. -/
theorem spawnentity_sleeping_iff_not_awake_detached (s : emstate_t)
    (entity_name : String) (position : ℚ × ℚ) (random64 : Nat)
    (h1 : surgescript_objectmanager_class_exists s entity_name = true)
    (h2 : surgescript_tagsystem_has_tag s.tag_system entity_name "entity" = true) :
    ∃ s2 inf,
      fun_spawnentity s entity_name position random64 =
        Except.ok (s2, s.next_handle) ∧
      flookup s2.db.info s.next_handle = some inf ∧
      inf.is_sleeping =
        !(surgescript_tagsystem_has_tag s.tag_system entity_name "awake" ||
          surgescript_tagsystem_has_tag s.tag_system entity_name "detached") ∧
      (surgescript_tagsystem_has_tag s.tag_system entity_name "awake" = false →
        surgescript_tagsystem_has_tag s.tag_system entity_name "detached" = false →
          inf.is_sleeping = true) := by
  obtain ⟨s2, inf, hok, hinfo, _, _, _, _, hsleep, _⟩ :=
    fun_spawnentity_ok s entity_name position random64 h1 h2
  refine ⟨s2, inf, hok, hinfo, hsleep, ?_⟩
  intro ha hd
  rw [hsleep, ha, hd]
  rfl

/-- C10: the id recorded for every spawned entity is
`random64() & 0xFFFFFFFF`: its upper 32 bits are zero, so it fits in 32
bits even though the id field is 64-bit. -/
theorem spawnentity_id_fits_32_bits (s : emstate_t)
    (entity_name : String) (position : ℚ × ℚ) (random64 : Nat)
    (h1 : surgescript_objectmanager_class_exists s entity_name = true)
    (h2 : surgescript_tagsystem_has_tag s.tag_system entity_name "entity" = true) :
    ∃ s2 inf,
      fun_spawnentity s entity_name position random64 =
        Except.ok (s2, s.next_handle) ∧
      flookup s2.db.info s.next_handle = some inf ∧
      inf.id = generate_entity_id random64 ∧
      inf.id < 2 ^ 32 ∧ inf.id / 2 ^ 32 = 0 := by
  obtain ⟨s2, inf, hok, hinfo, _, _, hid, _⟩ :=
    fun_spawnentity_ok s entity_name position random64 h1 h2
  have hlt : inf.id < 2 ^ 32 := by
    rw [hid]
    exact Nat.mod_lt _ (by norm_num)
  exact ⟨s2, inf, hok, hinfo, hid, hlt, Nat.div_eq_of_lt hlt⟩

/-- C9: a class tagged `"detached"` but not `"private"` does not abort
the spawn: a warning message is shown, the `"private"` tag is added to
the class, the spawn proceeds, and the entity is registered with
`is_persistent = false`. -/
theorem spawnentity_detached_not_private_fallback (s : emstate_t)
    (entity_name : String) (position : ℚ × ℚ) (random64 : Nat)
    (h1 : surgescript_objectmanager_class_exists s entity_name = true)
    (h2 : surgescript_tagsystem_has_tag s.tag_system entity_name "entity" = true)
    (h3 : surgescript_tagsystem_has_tag s.tag_system entity_name "detached" = true)
    (h4 : surgescript_tagsystem_has_tag s.tag_system entity_name "private" = false) :
    ∃ s2 inf,
      fun_spawnentity s entity_name position random64 =
        Except.ok (s2, s.next_handle) ∧
      flookup s2.db.info s.next_handle = some inf ∧
      s2.messages = s.messages ++
        ["Entity " ++ entity_name ++ " is tagged detached, but not private"] ∧
      surgescript_tagsystem_has_tag s2.tag_system entity_name "private" = true ∧
      inf.is_persistent = false := by
  obtain ⟨s2, inf, hok, hinfo, _, _, _, _, _, _, _, _, hfall⟩ :=
    fun_spawnentity_ok s entity_name position random64 h1 h2
  obtain ⟨hmsg, hpriv, hpers⟩ := hfall h3 h4
  exact ⟨s2, inf, hok, hinfo, hmsg, hpriv, hpers⟩

/-- C6: `spawnEntity` fails (with a fatal scripting error, which crashes
the application, so nothing is registered) exactly when the class name
does not exist or the class is not tagged `"entity"`; in every other
case it spawns the object as a child of Level at the given world
position and registers it in both indices. -/
theorem spawnentity_validates_class_and_tag (s : emstate_t)
    (entity_name : String) (position : ℚ × ℚ) (random64 : Nat) :
    ((fun_spawnentity s entity_name position random64).isOk = true ↔
      (surgescript_objectmanager_class_exists s entity_name = true ∧
       surgescript_tagsystem_has_tag s.tag_system entity_name "entity" = true)) ∧
    (∀ s2 hdl, fun_spawnentity s entity_name position random64 = Except.ok (s2, hdl) →
      hdl = s.next_handle ∧
      flookup s2.obj_parent hdl = some s.level_handle ∧
      flookup s2.obj_pos hdl = some position ∧
      (∃ inf, flookup s2.db.info hdl = some inf ∧
        flookup s2.db.id_to_handle inf.id = some hdl)) := by
  by_cases h1 : surgescript_objectmanager_class_exists s entity_name = true
  · by_cases h2 : surgescript_tagsystem_has_tag s.tag_system entity_name "entity" = true
    · obtain ⟨s2, inf, hok, hinfo, hid, _, _, _, _, hpar, hpos, _, _⟩ :=
        fun_spawnentity_ok s entity_name position random64 h1 h2
      constructor
      · rw [hok]
        simp [Except.isOk, Except.toBool, h1, h2]
      · intro s2a hdla heq
        rw [hok] at heq
        simp only [Except.ok.injEq, Prod.mk.injEq] at heq
        obtain ⟨hs2, hh⟩ := heq
        subst hs2; subst hh
        exact ⟨rfl, hpar, hpos, inf, hinfo, hid⟩
    · have herr : fun_spawnentity s entity_name position random64 =
          Except.error "Can't spawn entity: object isn't tagged entity!" := by
        unfold fun_spawnentity
        rw [if_neg (by simp [h1]), if_pos h2]
      constructor
      · rw [herr]
        simp [Except.isOk, Except.toBool, h2]
      · intro s2a hdla heq
        rw [herr] at heq
        exact absurd heq (by simp)
  · have herr : fun_spawnentity s entity_name position random64 =
        Except.error "Can't spawn entity: object doesn't exist!" := by
      unfold fun_spawnentity
      rw [if_pos h1]
    constructor
    · rw [herr]
      simp [Except.isOk, Except.toBool, h1]
    · intro s2a hdla heq
      rw [herr] at heq
      exact absurd heq (by simp)

/-- C8: every successfully spawned entity is stored, within the same
spawn operation, in the garbage-collection-prevention container
(`prevent_garbage_collection` / `NOTGARBAGECONTAINER`), and no
EntityManager operation removes an individual entry from it: the spawn
path only appends, `setROI` and the tree refresh leave it untouched,
`activeEntities` is a pure query, and the registry C-API helpers act on
`entitydb_t` alone and cannot reach the container. -/
theorem spawned_entity_retained_against_gc (s : emstate_t)
    (entity_name : String) (position : ℚ × ℚ) (random64 : Nat)
    (x y width height : ℚ)
    (h1 : surgescript_objectmanager_class_exists s entity_name = true)
    (h2 : surgescript_tagsystem_has_tag s.tag_system entity_name "entity" = true) :
    (∃ s2, fun_spawnentity s entity_name position random64 =
        Except.ok (s2, s.next_handle) ∧
      s2.not_garbage = s.not_garbage ++ [s.next_handle]) ∧
    (prevent_garbage_collection s s.next_handle).not_garbage =
      s.not_garbage ++ [s.next_handle] ∧
    (fun_setroi s x y width height).not_garbage = s.not_garbage ∧
    (refresh_entity_tree s).not_garbage = s.not_garbage := by
  obtain ⟨s2, _, hok, _, _, _, _, _, _, _, _, hng, _⟩ :=
    fun_spawnentity_ok s entity_name position random64 h1 h2
  refine ⟨⟨s2, hok, hng⟩, rfl, ?_, by simp [refresh_entity_tree]⟩
  unfold fun_setroi
  dsimp only []
  split_ifs
  · rfl
  · simp [refresh_entity_tree]

/-- The EntityManager of `EX0` with one entity (handle 5) in the Debug
container while Debug Mode is on. -/
def EXC1 : emstate_t := { EX0 with debug_members := [5], debug_mode := true }

/-- C1, counterexample: `activeEntities` does not aggregate the members
of the Debug container — entity 5 is an active member of the Debug
container (Debug Mode is on, the entity is not inactive), yet the query
returns an array without it. -/
theorem activeentities_skips_debug_container :
    EXC1.debug_mode = true ∧
    5 ∈ EXC1.debug_members ∧
    5 ∉ EXC1.inactive_objs ∧
    fun_activeentities EXC1 = [] := by
  with_unfolding_all decide

/-- C1, amended: `activeEntities` returns a freshly built array that
aggregates, via `selectActiveEntities`, the Awake container and each
unawake container currently referenced by the ROI container array (the
leaves intersecting the region of interest as of the last refresh), and
inactive members are skipped unless the level is in edit mode or Debug
Mode; the Debug container is not consulted. -/
theorem activeentities_aggregation (s : emstate_t) :
    (fun_activeentities s =
      selectActiveEntities s s.awake_members (!(s.edit_mode || s.debug_mode)) ++
        foreach_unawake_container_inside_roi s (!(s.edit_mode || s.debug_mode))) ∧
    (∀ e, e ∈ fun_activeentities s ↔
      ((e ∈ s.awake_members ∨ ∃ cid ∈ s.unawake_array, e ∈ leafMembers s.tree cid) ∧
       (s.edit_mode = false → s.debug_mode = false → e ∉ s.inactive_objs))) ∧
    (refresh_entity_tree s).unawake_array =
      ((refresh_entity_tree s).tree.filter
        (fun l => rect_intersects l.region s.db.roi)).map (fun l => l.cid) := by
  refine ⟨rfl, ?_, by simp [refresh_entity_tree]⟩
  intro e
  unfold fun_activeentities foreach_unawake_container_inside_roi selectActiveEntities
  rcases hem : s.edit_mode with _ | _ <;> rcases hdm : s.debug_mode with _ | _ <;>
    (simp [List.mem_append, List.mem_flatten, List.mem_filter, List.mem_map]; try tauto)

/-! ## Witnesses: the theorems above applied at concrete inputs -/

/-- Witness for C7 at `setROI(3, 4, 0, 0)`: a zero-sized rectangle still
contains its own corner. -/
theorem setroi_contains_origin_witness :
    entitymanager_is_inside_roi (fun_setroi EX0 3 4 0 0).db (3, 4) = true :=
  (setroi_normalizes_and_contains_origin EX0 3 4 0 0).2.2.1

/-- Witness for C3 on the one-entity registry whose object died. -/
theorem find_entity_by_id_self_healing_witness :
    flookup EXC2.id_to_handle 7 = some 1 ∧
    (1 ∉ (objectmanager_t.mk []).live) ∧
    (entitymanager_find_entity_by_id ⟨[]⟩ EXC2 7).1 = null_handle ∧
    flookup (entitymanager_find_entity_by_id ⟨[]⟩ EXC2 7).2.id_to_handle 7 = none ∧
    flookup (entitymanager_find_entity_by_id ⟨[]⟩ EXC2 7).2.info 1 = none := by
  have h := find_entity_by_id_self_healing ⟨[]⟩ EXC2 7 1 EXC2r
    (by with_unfolding_all decide) (by decide) (by with_unfolding_all decide)
    (by with_unfolding_all decide)
    (by intro hc; exact absurd hc (by with_unfolding_all decide))
    (by with_unfolding_all decide) (by with_unfolding_all decide)
  exact ⟨by with_unfolding_all decide, by decide, h.1, h.2.1, h.2.2.1⟩

/-- The state of `EX0` with the ROI already holding the normalization of
the rectangle `(0, 0, 50, 50)`. -/
def EXC4 : emstate_t := { EX0 with db := { EX0.db with roi := ⟨0, 0, 49, 49⟩ } }

/-- State `EXC4` with the space partition marked dirty. -/
def EXC4d : emstate_t := { EXC4 with db := { EXC4.db with dirty_partition := true } }

/-- Witness for C4: re-setting the identical rectangle is the identity
on a clean state, and still refreshes (and cleans) a dirty one. -/
theorem setroi_noop_unless_dirty_witness :
    (EXC4.db.roi =
      ⟨truncQ 0, truncQ 0, truncQ (0 + max 50 1 - 1), truncQ (0 + max 50 1 - 1)⟩ ∧
     fun_setroi EXC4 0 0 50 50 = EXC4) ∧
    (fun_setroi EXC4d 0 0 50 50 = refresh_entity_tree EXC4d ∧
     (fun_setroi EXC4d 0 0 50 50).db.dirty_partition = false) :=
  ⟨⟨by with_unfolding_all decide,
    (setroi_noop_unless_dirty EXC4 0 0 50 50 (by with_unfolding_all decide)).1 rfl⟩,
   (setroi_noop_unless_dirty EXC4d 0 0 50 50 (by with_unfolding_all decide)).2 rfl⟩

/-- Witness for C5: a `"Crate"` (no special tags) spawns sleeping. -/
theorem spawnentity_sleeping_witness :
    surgescript_objectmanager_class_exists EX0 "Crate" = true ∧
    ∃ s2 inf,
      fun_spawnentity EX0 "Crate" (100, 100) 12345 = Except.ok (s2, EX0.next_handle) ∧
      flookup s2.db.info EX0.next_handle = some inf ∧
      inf.is_sleeping = true := by
  refine ⟨by decide, ?_⟩
  obtain ⟨s2, inf, hok, hinfo, _, himp⟩ :=
    spawnentity_sleeping_iff_not_awake_detached EX0 "Crate" (100, 100) 12345
      (by decide) (by decide)
  exact ⟨s2, inf, hok, hinfo, himp (by decide) (by decide)⟩

/-- Witness for C6: the valid class spawns, the unknown class fails. -/
theorem spawnentity_validation_witness :
    (fun_spawnentity EX0 "Crate" (7, 8) 1).isOk = true ∧
    (fun_spawnentity EX0 "Missing" (7, 8) 1).isOk = false := by
  constructor
  · exact (spawnentity_validates_class_and_tag EX0 "Crate" (7, 8) 1).1.mpr
      ⟨by decide, by decide⟩
  · rcases hb : (fun_spawnentity EX0 "Missing" (7, 8) 1).isOk with _ | _
    · rfl
    · have hv := (spawnentity_validates_class_and_tag EX0 "Missing" (7, 8) 1).1.mp hb
      exact absurd hv.1 (by decide)

/-- Witness for C8: the freshly spawned `"Crate"` ends up in the
no-garbage container and `setROI` does not disturb the container. -/
theorem spawned_entity_retained_witness :
    ∃ s2, fun_spawnentity EX0 "Crate" (3, 3) 9 = Except.ok (s2, EX0.next_handle) ∧
      s2.not_garbage = EX0.not_garbage ++ [EX0.next_handle] ∧
      (fun_setroi EX0 1 2 3 4).not_garbage = EX0.not_garbage := by
  obtain ⟨⟨s2, hok, hng⟩, _, hsr, _⟩ :=
    spawned_entity_retained_against_gc EX0 "Crate" (3, 3) 9 1 2 3 4
      (by decide) (by decide)
  exact ⟨s2, hok, hng, hsr⟩

/-- Witness for C9: spawning the detached-but-not-private `"Ghost"`
warns, adds the tag, proceeds, and registers it as non-persistent. -/
theorem spawnentity_fallback_witness :
    ∃ s2 inf,
      fun_spawnentity EX0 "Ghost" (1, 2) 5 = Except.ok (s2, EX0.next_handle) ∧
      flookup s2.db.info EX0.next_handle = some inf ∧
      s2.messages = EX0.messages ++
        ["Entity " ++ "Ghost" ++ " is tagged detached, but not private"] ∧
      surgescript_tagsystem_has_tag s2.tag_system "Ghost" "private" = true ∧
      inf.is_persistent = false :=
  spawnentity_detached_not_private_fallback EX0 "Ghost" (1, 2) 5
    (by decide) (by decide) (by decide) (by decide)

/-- Witness for C10: a random draw above 32 bits still yields an id
below `2 ^ 32`. -/
theorem spawnentity_id_witness :
    ∃ s2 inf,
      fun_spawnentity EX0 "Crate" (0, 0) (2 ^ 40 + 123) =
        Except.ok (s2, EX0.next_handle) ∧
      flookup s2.db.info EX0.next_handle = some inf ∧
      inf.id < 2 ^ 32 := by
  obtain ⟨s2, inf, hok, hinfo, _, hlt, _⟩ :=
    spawnentity_id_fits_32_bits EX0 "Crate" (0, 0) (2 ^ 40 + 123)
      (by decide) (by decide)
  exact ⟨s2, inf, hok, hinfo, hlt⟩

/-- Witness for the amended C1 at the debug-mode state `EXC1`. -/
theorem activeentities_aggregation_witness :
    fun_activeentities EXC1 =
      selectActiveEntities EXC1 EXC1.awake_members
        (!(EXC1.edit_mode || EXC1.debug_mode)) ++
      foreach_unawake_container_inside_roi EXC1
        (!(EXC1.edit_mode || EXC1.debug_mode)) :=
  (activeentities_aggregation EXC1).1
